import Mathlib

/-!
Verification of the section-based template renderer of `readme_forge`
(`src/readme_forge/templates.py`).

The Python module defines a catalog of `TemplateSection`/`Template` values,
and a renderer `render_template(template_name, context)` that resolves the
template (falling back to `"standard"`), stable-sorts its sections by
`order`, synthesizes a table of contents when a section named `"toc"` is
present, renders every section body through the jinja2 engine against the
(possibly augmented) context, drops sections that fail to render or that
render to whitespace, and joins the survivors with single newlines.

Embedding choices:
* Python values stored in the context are modelled by the inductive `Value`
  (strings, ints, bools, None, lists, string-keyed dicts); a context is an
  association list with first-match lookup (`ctxGet`) and in-place update
  (`ctxSet`), mirroring dict semantics.  The in-place mutation of the
  context performed by the renderer is made explicit: `render_template`
  returns the output string together with the final context.
* The jinja2 engine is external to the repository.  Its application to the
  fixed section bodies of `DEFAULT_SECTIONS` is embedded as the function
  `jinjaS`, which translates each body (conditionals, loops, interpolation,
  the default filter, jinja default whitespace handling with the trailing
  newline of the source stripped) into a Lean function from contexts to
  `Option String`; `none` models an exception raised during rendering
  (for example a for-loop over a non-iterable truthy value), which the
  renderer catches and turns into omission of that section.  Renderer-level
  theorems that do not depend on the concrete bodies are stated for an
  arbitrary section-rendering function `jr`.
-/

namespace ReadmeForge

/-- A Python value as it may occur in a rendering context: modelled are
strings, integers, booleans, `None`, lists and string-keyed dicts. -/
inductive Value where
| vStr : String → Value
| vInt : Int → Value
| vBool : Bool → Value
| vNone : Value
| vList : List Value → Value
| vDict : List (String × Value) → Value

/-- The characters Python `str.strip()` removes (the ASCII whitespace
set; the section bodies never produce non-ASCII whitespace). -/
def isPySpace (c : Char) : Bool :=
  c == ' ' || c == '\t' || c == '\n' || c == '\r' || c == '\x0b' || c == '\x0c'

/-- Python `str.strip()`: remove leading and trailing whitespace. -/
def pyStrip (s : String) : String :=
  String.mk (((s.data.dropWhile isPySpace).reverse.dropWhile isPySpace).reverse)

/-- ASCII lowercasing of one character (Python `str.lower` restricted to
ASCII, which covers every section title). -/
def pyCharLower (c : Char) : Char :=
  if 'A' ≤ c ∧ c ≤ 'Z' then Char.ofNat (c.toNat + 32) else c

/-- Python `str.lower()` on ASCII text. -/
def pyLower (s : String) : String :=
  String.mk (s.data.map pyCharLower)

/-- Replace every occurrence of a non-empty pattern, scanning left to
right; the fuel argument (instantiated with the text length) only makes
the recursion structural and never runs out. -/
def replaceFuel (pat rep : List Char) : Nat → List Char → List Char
| _, [] => []
| 0, l => l
| fuel + 1, c :: rest =>
  if pat ≠ [] ∧ pat.isPrefixOf (c :: rest) then
    rep ++ replaceFuel pat rep fuel ((c :: rest).drop pat.length)
  else c :: replaceFuel pat rep fuel rest

/-- Python `str.replace(pat, rep)` for a non-empty pattern. -/
def pyReplace (s pat rep : String) : String :=
  String.mk (replaceFuel pat.data rep.data s.data.length s.data)

/-- Python `repr` of a string, in the common case (single quotes, escaping
of backslash, newline, carriage return, tab and the quote itself). -/
def pyQuote (s : String) : String :=
  "\x27" ++ pyReplace (pyReplace (pyReplace (pyReplace (pyReplace s "\\" "\\\\") "\n" "\\n") "\r" "\\r") "\t" "\\t") "\x27" "\\\x27" ++ "\x27"

/-- Comma-and-space join, as Python uses between list/dict elements of a repr. -/
def commaJoin : List String → String
| [] => ""
| [s] => s
| s :: t :: rest => s ++ ", " ++ commaJoin (t :: rest)

mutual

/-- Python `repr` of a `Value`. -/
def pyRepr : Value → String
| .vStr s => pyQuote s
| .vInt n => toString n
| .vBool b => if b then "True" else "False"
| .vNone => "None"
| .vList l => "[" ++ commaJoin (pyReprList l) ++ "]"
| .vDict l => "\x7b" ++ commaJoin (pyReprPairs l) ++ "\x7d"

/-- Python repr of each element of a list. -/
def pyReprList : List Value → List String
| [] => []
| v :: vs => pyRepr v :: pyReprList vs

/-- Python repr of each key-value pair of a dict. -/
def pyReprPairs : List (String × Value) → List String
| [] => []
| (k, v) :: kvs => (pyQuote k ++ ": " ++ pyRepr v) :: pyReprPairs kvs

end

/-- Python `str` of a `Value` (what the template engine interpolates):
the string itself for strings, `repr`-like text otherwise. -/
def pyStr : Value → String
| .vStr s => s
| v => pyRepr v

/-- Python truthiness of a `Value`. -/
def truthyV : Value → Bool
| .vStr s => !(s == "")
| .vInt n => !(n == 0)
| .vBool b => b
| .vNone => false
| .vList l => !l.isEmpty
| .vDict l => !l.isEmpty

/-- Truthiness of a possibly-undefined value: an absent key is falsy. -/
def truthyO : Option Value → Bool
| none => false
| some v => truthyV v

/-- Python iteration over a value: lists yield their elements, strings
their characters, dicts their keys; iterating any other value raises
`TypeError`, modelled as `none`. -/
def iterOf : Value → Option (List Value)
| .vList l => some l
| .vStr s => some (s.data.map (fun c => Value.vStr (String.singleton c)))
| .vDict l => some (l.map (fun kv => Value.vStr kv.1))
| _ => none

/-- Jinja attribute access `v.k`: subscript lookup on dicts, undefined
(`none`) on every other value. -/
def attrOf : Value → String → Option Value
| .vDict l, k => l.lookup k
| _, _ => none

/-- A rendering context: a Python dict from string keys to values,
modelled as an association list with first-match lookup. -/
abbrev Context : Type := List (String × Value)

/-- Dict lookup: the value of the first matching key, `none` if absent. -/
def ctxGet : Context → String → Option Value
| [], _ => none
| (k, v) :: rest, key => if k = key then some v else ctxGet rest key

/-- Dict assignment `d[key] = v`: replaces the value of the first
occurrence of the key in place, or appends the pair when absent —
matching Python dict insertion-order semantics. -/
def ctxSet : Context → String → Value → Context
| [], key, v => [(key, v)]
| (k, w) :: rest, key, v =>
  if k = key then (k, v) :: rest else (k, w) :: ctxSet rest key v

/-- Interpolation `{ { key } }` of a context key: `str` of the value,
empty output for an undefined key (the jinja default `Undefined`). -/
def ctxStr (ctx : Context) (key : String) : String :=
  match ctxGet ctx key with
  | none => ""
  | some v => pyStr v

/-- Interpolation of an attribute access: `str` of the attribute value,
empty output when undefined. -/
def attrStr (v : Value) (key : String) : String :=
  match attrOf v key with
  | none => ""
  | some w => pyStr w

/-- A section of a README template, mirroring the Python dataclass
`TemplateSection`.  The `content` field of the Python dataclass is a fixed
jinja2 template string per section name; its rendering semantics is
embedded below as `jinjaS`, keyed by the section name (in the source,
`DEFAULT_SECTIONS` associates each name with exactly one body). -/
structure TemplateSection where
  name : String
  title : String
  optional : Bool := true
  order : Int := 0
deriving DecidableEq

/-- A complete README template, mirroring the Python dataclass `Template`. -/
structure Template where
  name : String
  description : String
  project_types : List String
  sections : List TemplateSection
deriving DecidableEq

/-- The `"header"` entry of `DEFAULT_SECTIONS`. -/
def headerSection : TemplateSection :=
  { name := "header", title := "", optional := false, order := 0 }

/-- The `"features"` entry of `DEFAULT_SECTIONS`. -/
def featuresSection : TemplateSection :=
  { name := "features", title := "Features", optional := true, order := 10 }

/-- The `"demo"` entry of `DEFAULT_SECTIONS`. -/
def demoSection : TemplateSection :=
  { name := "demo", title := "Demo", optional := true, order := 15 }

/-- The `"prerequisites"` entry of `DEFAULT_SECTIONS`. -/
def prerequisitesSection : TemplateSection :=
  { name := "prerequisites", title := "Prerequisites", optional := true, order := 20 }

/-- The `"installation"` entry of `DEFAULT_SECTIONS`. -/
def installationSection : TemplateSection :=
  { name := "installation", title := "Installation", optional := false, order := 30 }

/-- The `"usage"` entry of `DEFAULT_SECTIONS`. -/
def usageSection : TemplateSection :=
  { name := "usage", title := "Usage", optional := false, order := 40 }

/-- The `"api_reference"` entry of `DEFAULT_SECTIONS`. -/
def apiReferenceSection : TemplateSection :=
  { name := "api_reference", title := "API Reference", optional := true, order := 50 }

/-- The `"configuration"` entry of `DEFAULT_SECTIONS`. -/
def configurationSection : TemplateSection :=
  { name := "configuration", title := "Configuration", optional := true, order := 55 }

/-- The `"roadmap"` entry of `DEFAULT_SECTIONS`. -/
def roadmapSection : TemplateSection :=
  { name := "roadmap", title := "Roadmap", optional := true, order := 60 }

/-- The `"contributing"` entry of `DEFAULT_SECTIONS`. -/
def contributingSection : TemplateSection :=
  { name := "contributing", title := "Contributing", optional := true, order := 70 }

/-- The `"testing"` entry of `DEFAULT_SECTIONS` (declared after
`"roadmap"` in the source, with the smaller-than-declaration order 65). -/
def testingSection : TemplateSection :=
  { name := "testing", title := "Testing", optional := true, order := 65 }

/-- The `"license"` entry of `DEFAULT_SECTIONS`. -/
def licenseSection : TemplateSection :=
  { name := "license", title := "License", optional := false, order := 80 }

/-- The `"contact"` entry of `DEFAULT_SECTIONS`. -/
def contactSection : TemplateSection :=
  { name := "contact", title := "Contact", optional := true, order := 90 }

/-- The `"acknowledgments"` entry of `DEFAULT_SECTIONS`. -/
def acknowledgmentsSection : TemplateSection :=
  { name := "acknowledgments", title := "Acknowledgments", optional := true, order := 100 }

/-- The `"toc"` entry of `DEFAULT_SECTIONS`. -/
def tocSection : TemplateSection :=
  { name := "toc", title := "Table of Contents", optional := true, order := 5 }

/-- The dict `DEFAULT_SECTIONS` of shared section definitions. -/
def DEFAULT_SECTIONS : List (String × TemplateSection) :=
  [("header", headerSection), ("features", featuresSection), ("demo", demoSection),
   ("prerequisites", prerequisitesSection), ("installation", installationSection),
   ("usage", usageSection), ("api_reference", apiReferenceSection),
   ("configuration", configurationSection), ("roadmap", roadmapSection),
   ("contributing", contributingSection), ("testing", testingSection),
   ("license", licenseSection), ("contact", contactSection),
   ("acknowledgments", acknowledgmentsSection), ("toc", tocSection)]

/-- The `"python_library"` template of the catalog. -/
def pythonLibraryTemplate : Template :=
  { name := "python_library",
    description := "Template for Python libraries and packages",
    project_types := ["library", "package", "module"],
    sections := [headerSection, tocSection, featuresSection, prerequisitesSection,
      installationSection, usageSection, apiReferenceSection, configurationSection,
      testingSection, roadmapSection, contributingSection, licenseSection,
      contactSection, acknowledgmentsSection] }

/-- The `"cli_tool"` template of the catalog. -/
def cliToolTemplate : Template :=
  { name := "cli_tool",
    description := "Template for command-line interface tools",
    project_types := ["cli", "command-line", "terminal"],
    sections := [headerSection, tocSection, featuresSection, demoSection,
      prerequisitesSection, installationSection, usageSection, configurationSection,
      roadmapSection, contributingSection, licenseSection, contactSection] }

/-- The `"web_app"` template of the catalog. -/
def webAppTemplate : Template :=
  { name := "web_app",
    description := "Template for web applications",
    project_types := ["web", "webapp", "website", "frontend", "backend"],
    sections := [headerSection, tocSection, featuresSection, demoSection,
      prerequisitesSection, installationSection, usageSection, configurationSection,
      apiReferenceSection, testingSection, roadmapSection, contributingSection,
      licenseSection, contactSection, acknowledgmentsSection] }

/-- The `"api"` template of the catalog. -/
def apiTemplate : Template :=
  { name := "api",
    description := "Template for REST APIs and backend services",
    project_types := ["api", "rest", "backend", "service", "microservice"],
    sections := [headerSection, tocSection, featuresSection, prerequisitesSection,
      installationSection, usageSection, apiReferenceSection, configurationSection,
      testingSection, roadmapSection, contributingSection, licenseSection,
      contactSection] }

/-- The `"minimal"` template of the catalog. -/
def minimalTemplate : Template :=
  { name := "minimal",
    description := "A minimal README template",
    project_types := ["minimal", "simple", "basic"],
    sections := [headerSection, installationSection, usageSection, licenseSection] }

/-- The `"standard"` template of the catalog (the fallback default). -/
def standardTemplate : Template :=
  { name := "standard",
    description := "A standard README template suitable for most projects",
    project_types := ["standard", "default", "general"],
    sections := [headerSection, tocSection, featuresSection, prerequisitesSection,
      installationSection, usageSection, roadmapSection, contributingSection,
      licenseSection, contactSection, acknowledgmentsSection] }

/-- The dict `TEMPLATES` of project-type specific templates, in its
declaration order. -/
def TEMPLATES : List (String × Template) :=
  [("python_library", pythonLibraryTemplate), ("cli_tool", cliToolTemplate),
   ("web_app", webAppTemplate), ("api", apiTemplate),
   ("minimal", minimalTemplate), ("standard", standardTemplate)]

/-- The function `get_template`: look a template up by name (`TEMPLATES.get(name)`). -/
def get_template (template_name : String) : Option Template :=
  TEMPLATES.lookup template_name

/-- Body of the `header` section.  Jinja source:
`# ...project_name...`, an optional badges block, then the description. -/
def renderHeader (ctx : Context) : Option String :=
  some ("# " ++ ctxStr ctx "project_name" ++ "\n\n" ++
    (if truthyO (ctxGet ctx "badges") then "\n" ++ ctxStr ctx "badges" ++ "\n" else "") ++
    "\n\n" ++ ctxStr ctx "project_description")

/-- Body of the `features` section: a bullet list over `features` when
truthy (raising, hence `none`, when it is truthy but not iterable),
placeholder bullets otherwise. -/
def renderFeatures (ctx : Context) : Option String :=
  match ctxGet ctx "features" with
  | some v =>
    if truthyV v then
      match iterOf v with
      | none => none
      | some items =>
        some ("## Features\n\n\n" ++
          String.join (items.map (fun it => "\n- " ++ pyStr it ++ "\n")) ++ "\n")
    else some "## Features\n\n\n- Feature 1\n- Feature 2\n- Feature 3\n"
  | none => some "## Features\n\n\n- Feature 1\n- Feature 2\n- Feature 3\n"

/-- Body of the `demo` section: optional gif and live-demo links. -/
def renderDemo (ctx : Context) : Option String :=
  some ("## Demo\n\n" ++
    (if truthyO (ctxGet ctx "demo_gif") then
      "\n![Demo](" ++ ctxStr ctx "demo_gif" ++ ")\n" else "") ++
    "\n\n" ++
    (if truthyO (ctxGet ctx "demo_url") then
      "\n[Live Demo](" ++ ctxStr ctx "demo_url" ++ ")\n" else ""))

/-- Body of the `prerequisites` section: a bullet list over
`prerequisites` when truthy, a Python 3.8 default otherwise. -/
def renderPrerequisites (ctx : Context) : Option String :=
  match ctxGet ctx "prerequisites" with
  | some v =>
    if truthyV v then
      match iterOf v with
      | none => none
      | some items =>
        some ("## Prerequisites\n\n\n" ++
          String.join (items.map (fun it => "\n- " ++ pyStr it ++ "\n")) ++ "\n")
    else some "## Prerequisites\n\n\nBefore you begin, ensure you have the following installed:\n- Python 3.8 or higher\n"
  | none => some "## Prerequisites\n\n\nBefore you begin, ensure you have the following installed:\n- Python 3.8 or higher\n"

/-- Body of the `installation` section: a bash block with the provided
instructions, or a `pip install` default. -/
def renderInstallation (ctx : Context) : Option String :=
  some ("## Installation\n\n" ++
    (if truthyO (ctxGet ctx "installation_instructions") then
      "\n```bash\n" ++ ctxStr ctx "installation_instructions" ++ "\n```\n"
     else "\n```bash\npip install " ++ ctxStr ctx "project_name" ++ "\n```\n"))

/-- One iteration of the examples loop of the `usage` section. -/
def usageExampleBlock (ex : Value) : String :=
  "\n#### " ++ attrStr ex "title" ++ "\n\n```" ++
  pyStr ((attrOf ex "language").getD (Value.vStr "bash")) ++ "\n" ++
  attrStr ex "code" ++ "\n```\n\n"

/-- Body of the `usage` section: a code block (instructions or a
`--help` default) followed by an optional examples loop. -/
def renderUsage (ctx : Context) : Option String :=
  let first := "## Usage\n\n" ++
    (if truthyO (ctxGet ctx "usage_instructions") then
      "\n```" ++ pyStr ((ctxGet ctx "code_language").getD (Value.vStr "bash")) ++ "\n" ++
      ctxStr ctx "usage_instructions" ++ "\n```\n"
     else "\n```bash\n" ++ ctxStr ctx "project_name" ++ " --help\n```\n")
  match ctxGet ctx "usage_examples" with
  | some v =>
    if truthyV v then
      match iterOf v with
      | none => none
      | some items =>
        some (first ++ "\n\n\n### Examples\n\n" ++
          String.join (items.map usageExampleBlock) ++ "\n")
    else some (first ++ "\n\n")
  | none => some (first ++ "\n\n")

/-- Body of the `api_reference` section: a docs link, or a placeholder
function table. -/
def renderApiReference (ctx : Context) : Option String :=
  some ("## API Reference\n\n" ++
    (if truthyO (ctxGet ctx "api_docs_url") then
      "\nFor detailed API documentation, visit [API Docs](" ++ ctxStr ctx "api_docs_url" ++ ").\n"
     else "\n### Core Functions\n\n| Function | Description |\n|----------|-------------|\n| `function_name()` | Description of function |\n\n"))

/-- One row of the environment-variable table of the `configuration`
section. -/
def envVarRow (v : Value) : String :=
  "\n| `" ++ attrStr v "name" ++ "` | " ++ attrStr v "description" ++ " | " ++
  pyStr ((attrOf v "default").getD (Value.vStr "None")) ++ " |\n"

/-- Body of the `configuration` section: an optional config-file block
followed by an optional environment-variable table. -/
def renderConfiguration (ctx : Context) : Option String :=
  let first := "## Configuration\n\n" ++
    (if truthyO (ctxGet ctx "config_file") then
      "\nCreate a `" ++ ctxStr ctx "config_file" ++ "` file in your project root:\n\n```" ++
      pyStr ((ctxGet ctx "config_format").getD (Value.vStr "json")) ++ "\n" ++
      pyStr ((ctxGet ctx "config_example").getD (Value.vStr "\x7b\x7d")) ++ "\n```\n"
     else "")
  match ctxGet ctx "env_vars" with
  | some v =>
    if truthyV v then
      match iterOf v with
      | none => none
      | some items =>
        some (first ++ "\n\n\n### Environment Variables\n\n| Variable | Description | Default |\n|----------|-------------|---------|\n" ++
          String.join (items.map envVarRow) ++ "\n")
    else some (first ++ "\n\n")
  | none => some (first ++ "\n\n")

/-- One line of the roadmap-items loop. -/
def roadmapItemLine (item : Value) : String :=
  "\n- [" ++ (if truthyO (attrOf item "done") then "x" else " ") ++ "] " ++
  attrStr item "title" ++ "\n"

/-- Body of the `roadmap` section: a checkbox list over `roadmap_items`
when truthy, a default list otherwise, then the open-issues link. -/
def renderRoadmap (ctx : Context) : Option String :=
  let tailText := "\n\nSee the [open issues](https://github.com/" ++
    ctxStr ctx "github_username" ++ "/" ++ ctxStr ctx "project_name" ++
    "/issues) for a full list of proposed features and known issues."
  match ctxGet ctx "roadmap_items" with
  | some v =>
    if truthyV v then
      match iterOf v with
      | none => none
      | some items =>
        some ("## Roadmap\n\n\n" ++ String.join (items.map roadmapItemLine) ++ "\n" ++ tailText)
    else some ("## Roadmap\n\n\n- [x] Initial release\n- [ ] Add more features\n- [ ] Write comprehensive documentation\n" ++ tailText)
  | none => some ("## Roadmap\n\n\n- [x] Initial release\n- [ ] Add more features\n- [ ] Write comprehensive documentation\n" ++ tailText)

/-- Body of the `contributing` section: fixed how-to text plus an
optional CONTRIBUTING.md pointer. -/
def renderContributing (ctx : Context) : Option String :=
  some ("## Contributing\n\nContributions are welcome! Here\x27s how you can help:\n\n1. Fork the repository\n2. Create a feature branch (`git checkout -b feature/amazing-feature`)\n3. Commit your changes (`git commit -m \x27Add amazing feature\x27`)\n4. Push to the branch (`git push origin feature/amazing-feature`)\n5. Open a Pull Request\n\n" ++
    (if truthyO (ctxGet ctx "contributing_file") then
      "\nPlease read [CONTRIBUTING.md](" ++ ctxStr ctx "contributing_file" ++ ") for details on our code of conduct and the process for submitting pull requests.\n"
     else ""))

/-- Body of the `testing` section: a test-command block (default
`pytest`) plus an optional coverage block. -/
def renderTesting (ctx : Context) : Option String :=
  some ("## Testing\n\n" ++
    (if truthyO (ctxGet ctx "test_command") then
      "\n```bash\n" ++ ctxStr ctx "test_command" ++ "\n```\n"
     else "\n```bash\npytest\n```\n") ++
    "\n\n" ++
    (if truthyO (ctxGet ctx "coverage_command") then
      "\n### Coverage\n\n```bash\n" ++ ctxStr ctx "coverage_command" ++ "\n```\n"
     else ""))

/-- The guard of the `license` section: `license and license != 'None'`
under jinja semantics (an absent key is falsy; the string comparison only
succeeds against the literal string `None`). -/
def licenseCond (ctx : Context) : Bool :=
  match ctxGet ctx "license" with
  | none => false
  | some v => truthyV v && (match v with | .vStr s => !(s == "None") | _ => true)

/-- Body of the `license` section: names the license when the guard
holds, otherwise falls back to the provided-as-is sentence. -/
def renderLicense (ctx : Context) : Option String :=
  some ("## License\n\n" ++
    (if licenseCond ctx then
      "\nThis project is licensed under the " ++ ctxStr ctx "license" ++ " License - see the [LICENSE](LICENSE) file for details.\n"
     else "\nThis project is provided as-is without any license.\n"))

/-- Body of the `contact` section: author line, optional twitter line,
project link. -/
def renderContact (ctx : Context) : Option String :=
  some ("## Contact\n\n" ++
    (if truthyO (ctxGet ctx "author_name") then ctxStr ctx "author_name" else "Your Name") ++
    (if truthyO (ctxGet ctx "author_email") then " - " ++ ctxStr ctx "author_email" else "") ++
    "\n\n" ++
    (if truthyO (ctxGet ctx "twitter_handle") then
      "\nTwitter: [@" ++ ctxStr ctx "twitter_handle" ++ "](https://twitter.com/" ++ ctxStr ctx "twitter_handle" ++ ")\n"
     else "") ++
    "\n\nProject Link: [https://github.com/" ++ ctxStr ctx "github_username" ++ "/" ++ ctxStr ctx "project_name" ++
    "](https://github.com/" ++ ctxStr ctx "github_username" ++ "/" ++ ctxStr ctx "project_name" ++ ")")

/-- Body of the `acknowledgments` section: a bullet list over
`acknowledgments` when truthy, a thanks default otherwise. -/
def renderAcknowledgments (ctx : Context) : Option String :=
  match ctxGet ctx "acknowledgments" with
  | some v =>
    if truthyV v then
      match iterOf v with
      | none => none
      | some items =>
        some ("## Acknowledgments\n\n\n" ++
          String.join (items.map (fun it => "\n- " ++ pyStr it ++ "\n")) ++ "\n")
    else some "## Acknowledgments\n\n\n- Thanks to all contributors\n"
  | none => some "## Acknowledgments\n\n\n- Thanks to all contributors\n"

/-- Body of the `toc` section: the heading plus the interpolated
`table_of_contents` context value. -/
def renderTocBody (ctx : Context) : Option String :=
  some ("## Table of Contents\n\n" ++ ctxStr ctx "table_of_contents")

/-- The jinja2 engine applied to a section body
(`env.from_string(section.content).render(context)` in the source):
each section name of `DEFAULT_SECTIONS` carries exactly one body, so the
engine is embedded keyed by section name.  Sections outside the catalog
carry no modelled body and are treated as failing to render. -/
def jinjaS (s : TemplateSection) (ctx : Context) : Option String :=
  match s.name with
  | "header" => renderHeader ctx
  | "toc" => renderTocBody ctx
  | "features" => renderFeatures ctx
  | "demo" => renderDemo ctx
  | "prerequisites" => renderPrerequisites ctx
  | "installation" => renderInstallation ctx
  | "usage" => renderUsage ctx
  | "api_reference" => renderApiReference ctx
  | "configuration" => renderConfiguration ctx
  | "roadmap" => renderRoadmap ctx
  | "contributing" => renderContributing ctx
  | "testing" => renderTesting ctx
  | "license" => renderLicense ctx
  | "contact" => renderContact ctx
  | "acknowledgments" => renderAcknowledgments ctx
  | _ => none

/-- Stable insertion of a section into a list already sorted by `order`:
the new element goes before the first strictly larger `order`, hence after
every already-present element of equal `order`. -/
def insertByOrder (s : TemplateSection) : List TemplateSection → List TemplateSection
| [] => [s]
| t :: ts => if s.order ≤ t.order then s :: t :: ts else t :: insertByOrder s ts

/-- The stable ascending sort on the `order` field, modelling Python
`sorted(template.sections, key=lambda s: s.order)`. -/
def sortByOrder : List TemplateSection → List TemplateSection
| [] => []
| s :: ss => insertByOrder s (sortByOrder ss)

/-- The check `any(s.name == "toc" for s in sorted_sections)`. -/
def hasTocSection (ss : List TemplateSection) : Bool :=
  ss.any (fun s => s.name == "toc")

/-- One table-of-contents entry: markdown link text whose anchor is the
lowercased title with spaces replaced by hyphens. -/
def tocEntry (s : TemplateSection) : String :=
  "- [" ++ s.title ++ "](#" ++ pyReplace (pyLower s.title) " " "-" ++ ")"

/-- The toc-building loop of `render_template`: collect an entry for every
section that is neither `toc` nor `header` and has a truthy (non-empty)
title, in list order. -/
def tocItemsLoop : List TemplateSection → List String
| [] => []
| s :: rest =>
  if s.name ≠ "toc" ∧ s.name ≠ "header" ∧ s.title ≠ "" then
    tocEntry s :: tocItemsLoop rest
  else tocItemsLoop rest

/-- Python `"\n".join`. -/
def joinNL : List String → String
| [] => ""
| [p] => p
| p :: q :: rest => p ++ "\n" ++ joinNL (q :: rest)

/-- The section-rendering loop of `render_template`, for an arbitrary
section-rendering engine `jr`: a failed render (`none`, a caught
exception) is skipped silently, and a successful render is kept only when
it is not whitespace-only. -/
def renderLoopWith (jr : TemplateSection → Context → Option String)
    (ctx : Context) : List TemplateSection → List String
| [] => []
| s :: rest =>
  match jr s ctx with
  | none => renderLoopWith jr ctx rest
  | some r => if pyStrip r = "" then renderLoopWith jr ctx rest else r :: renderLoopWith jr ctx rest

/-- The body of `render_template` applied to an already resolved
template: sort the sections, inject the synthesized table of contents
into the context when a `toc` section is present, render every section
against the augmented context, and join the survivors with newlines.
Returns the output document together with the final (possibly mutated)
context. -/
def renderResolvedWith (jr : TemplateSection → Context → Option String)
    (t : Template) (ctx : Context) : String × Context :=
  let sorted := sortByOrder t.sections
  let ctx1 :=
    if hasTocSection sorted then
      ctxSet ctx "table_of_contents" (Value.vStr (joinNL (tocItemsLoop sorted)))
    else ctx
  (joinNL (renderLoopWith jr ctx1 sorted), ctx1)

/-- Template resolution of `render_template`: an unknown name silently
falls back to `TEMPLATES["standard"]`. -/
def resolveTemplate (template_name : String) : Template :=
  match get_template template_name with
  | some t => t
  | none => standardTemplate

/-- The renderer `render_template` for an arbitrary section-rendering engine. -/
def renderDocumentWith (jr : TemplateSection → Context → Option String)
    (template_name : String) (ctx : Context) : String × Context :=
  renderResolvedWith jr (resolveTemplate template_name) ctx

/-- The function `render_template(template_name, context)`: the renderer with the
embedded jinja2 engine `jinjaS`.  The second component is the context
after the call (the source mutates the context argument in place). -/
def render_template (template_name : String) (ctx : Context) : String × Context :=
  renderDocumentWith jinjaS template_name ctx

/-- The function `get_section_names(template_name)`: the section names of an existing
template in declaration order, the empty list for an unknown name. -/
def get_section_names (template_name : String) : List String :=
  match get_template template_name with
  | none => []
  | some t => t.sections.map (fun s => s.name)

/-! ### Context lemmas -/

theorem ctxGet_ctxSet_same (ctx : Context) (k : String) (v : Value) :
    ctxGet (ctxSet ctx k v) k = some v := by
  induction ctx with
  | nil => simp [ctxSet, ctxGet]
  | cons kv rest ih =>
    obtain ⟨k0, w⟩ := kv
    by_cases h : k0 = k
    · simp [ctxSet, ctxGet, h]
    · simp [ctxSet, ctxGet, h, ih]

theorem ctxGet_ctxSet_ne (ctx : Context) (k : String) (v : Value) (k' : String)
    (h : k' ≠ k) : ctxGet (ctxSet ctx k v) k' = ctxGet ctx k' := by
  have hk : ¬ k = k' := fun hh => h hh.symm
  induction ctx with
  | nil => simp [ctxSet, ctxGet, hk]
  | cons kv rest ih =>
    obtain ⟨k0, w⟩ := kv
    by_cases h0 : k0 = k
    · subst h0
      simp [ctxSet, ctxGet, hk]
    · by_cases h1 : k0 = k'
      · simp [ctxSet, ctxGet, h0, h1, h]
      · simp [ctxSet, ctxGet, h0, h1, ih]

theorem ctxSet_ctxSet_same (ctx : Context) (k : String) (v : Value) :
    ctxSet (ctxSet ctx k v) k v = ctxSet ctx k v := by
  induction ctx with
  | nil => simp [ctxSet]
  | cons kv rest ih =>
    obtain ⟨k0, w⟩ := kv
    by_cases h : k0 = k
    · simp [ctxSet, h]
    · simp [ctxSet, h, ih]

/-! ### Render-loop lemmas -/

theorem renderLoopWith_eq_filterMap (jr : TemplateSection → Context → Option String)
    (ctx : Context) (l : List TemplateSection) :
    renderLoopWith jr ctx l =
      l.filterMap (fun s => (jr s ctx).bind (fun r => if pyStrip r = "" then none else some r)) := by
  induction l with
  | nil => rfl
  | cons s rest ih =>
    cases h : jr s ctx with
    | none => simp [renderLoopWith, h, ih]
    | some r =>
      by_cases hr : pyStrip r = ""
      · simp [renderLoopWith, h, hr, ih]
      · simp [renderLoopWith, h, hr, ih]

theorem trim_ne_of_mem_renderLoopWith (jr : TemplateSection → Context → Option String)
    (ctx : Context) (l : List TemplateSection) (p : String)
    (hp : p ∈ renderLoopWith jr ctx l) : pyStrip p ≠ "" := by
  induction l with
  | nil => simp [renderLoopWith] at hp
  | cons s rest ih =>
    revert hp
    cases h : jr s ctx with
    | none => intro hp; exact ih (by simpa [renderLoopWith, h] using hp)
    | some r =>
      by_cases hr : pyStrip r = ""
      · intro hp; exact ih (by simpa [renderLoopWith, h, hr] using hp)
      · intro hp
        rcases (by simpa [renderLoopWith, h, hr] using hp : p = r ∨ p ∈ renderLoopWith jr ctx rest) with
          rfl | hmem
        · exact hr
        · exact ih hmem

theorem renderLoopWith_failure_as_empty (jr : TemplateSection → Context → Option String)
    (ctx : Context) (l : List TemplateSection) :
    renderLoopWith jr ctx l =
      renderLoopWith (fun s c => some ((jr s c).getD "")) ctx l := by
  induction l with
  | nil => rfl
  | cons s rest ih =>
    have htrim : pyStrip "" = "" := rfl
    cases h : jr s ctx with
    | none => simp [renderLoopWith, h, ih, htrim]
    | some r =>
      by_cases hr : pyStrip r = ""
      · simp [renderLoopWith, h, hr, ih]
      · simp [renderLoopWith, h, hr, ih]

theorem renderLoopWith_blank_as_failure (jr : TemplateSection → Context → Option String)
    (ctx : Context) (l : List TemplateSection) :
    renderLoopWith jr ctx l =
      renderLoopWith (fun s c => (jr s c).bind (fun r => if pyStrip r = "" then none else some r)) ctx l := by
  induction l with
  | nil => rfl
  | cons s rest ih =>
    cases h : jr s ctx with
    | none => simp [renderLoopWith, h, ih]
    | some r =>
      by_cases hr : pyStrip r = ""
      · simp [renderLoopWith, h, hr, ih]
      · simp [renderLoopWith, h, hr, ih]

/-! ### Stable-sort lemmas -/

theorem mem_insertByOrder {a s : TemplateSection} {l : List TemplateSection} :
    a ∈ insertByOrder s l ↔ a = s ∨ a ∈ l := by
  induction l with
  | nil => simp [insertByOrder]
  | cons t ts ih =>
    by_cases h : s.order ≤ t.order
    · simp [insertByOrder, h]
    · simp [insertByOrder, h, ih]
      tauto

theorem pairwise_insertByOrder (s : TemplateSection) (l : List TemplateSection)
    (h : l.Pairwise (fun a b => a.order ≤ b.order)) :
    (insertByOrder s l).Pairwise (fun a b => a.order ≤ b.order) := by
  induction l with
  | nil => simp [insertByOrder]
  | cons t ts ih =>
    rcases List.pairwise_cons.mp h with ⟨ht, hts⟩
    by_cases hle : s.order ≤ t.order
    · rw [insertByOrder, if_pos hle]
      refine List.pairwise_cons.mpr ⟨?_, h⟩
      intro b hb
      rcases List.mem_cons.mp hb with rfl | hb
      · exact hle
      · exact le_trans hle (ht b hb)
    · rw [insertByOrder, if_neg hle]
      refine List.pairwise_cons.mpr ⟨?_, ih hts⟩
      intro b hb
      rcases mem_insertByOrder.mp hb with rfl | hb
      · exact le_of_not_le hle
      · exact ht b hb

theorem pairwise_sortByOrder (l : List TemplateSection) :
    (sortByOrder l).Pairwise (fun a b => a.order ≤ b.order) := by
  induction l with
  | nil => exact List.Pairwise.nil
  | cons s ss ih => exact pairwise_insertByOrder s (sortByOrder ss) ih

theorem perm_insertByOrder (s : TemplateSection) (l : List TemplateSection) :
    List.Perm (insertByOrder s l) (s :: l) := by
  induction l with
  | nil => exact List.Perm.refl _
  | cons t ts ih =>
    by_cases h : s.order ≤ t.order
    · rw [insertByOrder, if_pos h]
    · rw [insertByOrder, if_neg h]
      exact (List.Perm.cons t ih).trans (List.Perm.swap s t ts)

theorem perm_sortByOrder (l : List TemplateSection) : List.Perm (sortByOrder l) l := by
  induction l with
  | nil => exact List.Perm.refl _
  | cons s ss ih =>
    exact (perm_insertByOrder s (sortByOrder ss)).trans (List.Perm.cons s ih)

theorem filter_insertByOrder (s : TemplateSection) (l : List TemplateSection) (k : Int) :
    (insertByOrder s l).filter (fun x => x.order == k) =
      (if s.order == k then [s] else []) ++ l.filter (fun x => x.order == k) := by
  induction l with
  | nil => by_cases h : s.order == k <;> simp [insertByOrder, List.filter, h]
  | cons t ts ih =>
    by_cases hle : s.order ≤ t.order
    · by_cases h : s.order == k <;> simp [insertByOrder, hle, List.filter, h]
    · have hlt : t.order < s.order := lt_of_not_le hle
      by_cases hs : s.order == k
      · have ht : (t.order == k) = false := by
          rw [beq_eq_false_iff_ne]
          have hs2 : s.order = k := by simpa using hs
          omega
        simp [insertByOrder, hle, List.filter, hs, ht, ih]
      · by_cases ht : t.order == k <;>
          simp [insertByOrder, hle, List.filter, hs, ht, ih]

theorem filter_sortByOrder (l : List TemplateSection) (k : Int) :
    (sortByOrder l).filter (fun x => x.order == k) = l.filter (fun x => x.order == k) := by
  induction l with
  | nil => rfl
  | cons s ss ih =>
    by_cases h : s.order == k <;>
      simp [sortByOrder, filter_insertByOrder, List.filter, h, ih]

/-! ### Table-of-contents lemmas -/

theorem tocItemsLoop_eq_filter_map (l : List TemplateSection) :
    tocItemsLoop l =
      (l.filter (fun s => !(s.name == "toc") && !(s.name == "header") && !(s.title == ""))).map tocEntry := by
  induction l with
  | nil => rfl
  | cons s rest ih =>
    by_cases h : s.name ≠ "toc" ∧ s.name ≠ "header" ∧ s.title ≠ ""
    · have hb : (!(s.name == "toc") && !(s.name == "header") && !(s.title == "")) = true := by
        simp [h.1, h.2.1, h.2.2]
      simp [tocItemsLoop, h, List.filter, hb, ih]
    · have hb : (!(s.name == "toc") && !(s.name == "header") && !(s.title == "")) = false := by
        by_contra hc
        have hc2 := eq_true_of_ne_false hc
        rw [Bool.and_eq_true, Bool.and_eq_true] at hc2
        simp only [Bool.not_eq_true', beq_eq_false_iff_ne] at hc2
        exact h ⟨hc2.1.1, hc2.1.2, hc2.2⟩
      simp [tocItemsLoop, h, List.filter, hb, ih]

/-! ### The `optional` flag is never consulted by the renderer -/

theorem jinjaS_set_optional (s : TemplateSection) (b : Bool) (ctx : Context) :
    jinjaS { s with optional := b } ctx = jinjaS s ctx := rfl

theorem insertByOrder_map_optional (f : TemplateSection → Bool) (s : TemplateSection)
    (l : List TemplateSection) :
    insertByOrder { s with optional := f s } (l.map (fun x => { x with optional := f x })) =
      (insertByOrder s l).map (fun x => { x with optional := f x }) := by
  induction l with
  | nil => rfl
  | cons t ts ih =>
    by_cases h : s.order ≤ t.order
    · simp [insertByOrder, h]
    · simp [insertByOrder, h, ih]

theorem sortByOrder_map_optional (f : TemplateSection → Bool) (l : List TemplateSection) :
    sortByOrder (l.map (fun x => { x with optional := f x })) =
      (sortByOrder l).map (fun x => { x with optional := f x }) := by
  induction l with
  | nil => rfl
  | cons s ss ih => simp [sortByOrder, ih, insertByOrder_map_optional]

theorem hasTocSection_map_optional (f : TemplateSection → Bool) (l : List TemplateSection) :
    hasTocSection (l.map (fun x => { x with optional := f x })) = hasTocSection l := by
  induction l with
  | nil => rfl
  | cons s ss ih => simp [hasTocSection, List.any] at ih ⊢; rw [ih]

theorem tocItemsLoop_map_optional (f : TemplateSection → Bool) (l : List TemplateSection) :
    tocItemsLoop (l.map (fun x => { x with optional := f x })) = tocItemsLoop l := by
  induction l with
  | nil => rfl
  | cons s ss ih =>
    by_cases h : s.name ≠ "toc" ∧ s.name ≠ "header" ∧ s.title ≠ "" <;>
      simp [tocItemsLoop, h, ih, tocEntry]

theorem renderLoopWith_jinjaS_map_optional (f : TemplateSection → Bool) (ctx : Context)
    (l : List TemplateSection) :
    renderLoopWith jinjaS ctx (l.map (fun x => { x with optional := f x })) =
      renderLoopWith jinjaS ctx l := by
  induction l with
  | nil => rfl
  | cons s rest ih =>
    cases h : jinjaS s ctx with
    | none => simp [renderLoopWith, jinjaS_set_optional, h, ih]
    | some r =>
      by_cases hr : pyStrip r = "" <;>
        simp [renderLoopWith, jinjaS_set_optional, h, hr, ih]

/-! ### Unfolding the renderer -/

theorem renderResolvedWith_snd (jr : TemplateSection → Context → Option String)
    (t : Template) (ctx : Context) :
    (renderResolvedWith jr t ctx).2 =
      if hasTocSection (sortByOrder t.sections) then
        ctxSet ctx "table_of_contents"
          (Value.vStr (joinNL (tocItemsLoop (sortByOrder t.sections))))
      else ctx := rfl

theorem renderResolvedWith_fst (jr : TemplateSection → Context → Option String)
    (t : Template) (ctx : Context) :
    (renderResolvedWith jr t ctx).1 =
      joinNL (renderLoopWith jr (renderResolvedWith jr t ctx).2 (sortByOrder t.sections)) := rfl

/-! ### Join lemmas -/

theorem joinNL_append_single (l : List String) (p : String) :
    ∃ pre, joinNL (l ++ [p]) = pre ++ p := by
  induction l with
  | nil => exact ⟨"", by simp [joinNL]⟩
  | cons a l ih =>
    cases l with
    | nil => exact ⟨a ++ "\n", by simp [joinNL]⟩
    | cons b l2 =>
      obtain ⟨pre, hpre⟩ := ih
      refine ⟨a ++ "\n" ++ pre, ?_⟩
      have h2 : joinNL ((a :: b :: l2) ++ [p]) = a ++ "\n" ++ joinNL ((b :: l2) ++ [p]) := rfl
      rw [h2, hpre]
      simp [String.append_assoc]

theorem renderLoopWith_append (jr : TemplateSection → Context → Option String)
    (ctx : Context) (l₁ l₂ : List TemplateSection) :
    renderLoopWith jr ctx (l₁ ++ l₂) =
      renderLoopWith jr ctx l₁ ++ renderLoopWith jr ctx l₂ := by
  induction l₁ with
  | nil => rfl
  | cons s rest ih =>
    cases h : jr s ctx with
    | none => simp [renderLoopWith, h, ih]
    | some r =>
      by_cases hr : pyStrip r = ""
      · simp [renderLoopWith, h, hr, ih]
      · simp [renderLoopWith, h, hr, ih]

/-! ### Claim theorems -/

/-- C3: for every template name that is not in the catalog and every
context, `render_template` returns exactly the same output string and
performs exactly the same context mutation as `render_template` on the
default name `"standard"`, and the default template always exists in the
catalog. -/
theorem unknown_template_fallback :
    (∀ (name : String) (ctx : Context), get_template name = none →
      render_template name ctx = render_template "standard" ctx) ∧
    get_template "standard" = some standardTemplate := by
  constructor
  · intro name ctx h
    unfold render_template renderDocumentWith resolveTemplate
    rw [h]
    rfl
  · rfl

/-- Witness for C3 at the concrete unknown name `"not_a_template"` and
the empty context. -/
theorem unknown_template_fallback_witness :
    get_template "not_a_template" = none ∧
    render_template "not_a_template" [] = render_template "standard" [] :=
  ⟨rfl, unknown_template_fallback.1 "not_a_template" [] rfl⟩

/-- C8: `get_section_names` lists an existing template in declaration
order (not render order) and returns the empty list for an unknown name;
for `"python_library"` it lists `testing` before `roadmap`, while the
render-order sort places `roadmap` (order 60) before `testing`
(order 65). -/
theorem section_names_declaration_order :
    (∀ name : String, get_template name = none → get_section_names name = []) ∧
    (∀ (name : String) (t : Template), get_template name = some t →
      get_section_names name = t.sections.map (fun s => s.name)) ∧
    get_section_names "python_library" =
      ["header", "toc", "features", "prerequisites", "installation", "usage",
       "api_reference", "configuration", "testing", "roadmap", "contributing",
       "license", "contact", "acknowledgments"] ∧
    List.indexOf "testing" (get_section_names "python_library") <
      List.indexOf "roadmap" (get_section_names "python_library") ∧
    List.indexOf "roadmap"
        ((sortByOrder pythonLibraryTemplate.sections).map (fun s => s.name)) <
      List.indexOf "testing"
        ((sortByOrder pythonLibraryTemplate.sections).map (fun s => s.name)) := by
  refine ⟨?_, ?_, by decide, by decide, by decide⟩
  · intro name h
    unfold get_section_names
    rw [h]
  · intro name t h
    unfold get_section_names
    rw [h]

/-- Witness for C8: the unknown name `"no_such"` yields the empty list,
and the known name `"minimal"` yields its declaration-order names. -/
theorem section_names_declaration_order_witness :
    (get_template "no_such" = none ∧ get_section_names "no_such" = []) ∧
    (get_template "minimal" = some minimalTemplate ∧
      get_section_names "minimal" = minimalTemplate.sections.map (fun s => s.name)) :=
  ⟨⟨rfl, section_names_declaration_order.1 "no_such" rfl⟩,
   ⟨rfl, section_names_declaration_order.2.1 "minimal" minimalTemplate rfl⟩⟩

/-- C6: the only context mutation `render_template` performs is the
update of the single key `table_of_contents`, and it does so only when
the resolved template has a `toc` section: every other key keeps its
value, and with no `toc` section the context comes back entirely
unchanged. -/
theorem context_frame_effect (name : String) (ctx : Context) :
    (∀ k : String, k ≠ "table_of_contents" →
      ctxGet (render_template name ctx).2 k = ctxGet ctx k) ∧
    (hasTocSection (sortByOrder (resolveTemplate name).sections) = false →
      (render_template name ctx).2 = ctx) ∧
    (hasTocSection (sortByOrder (resolveTemplate name).sections) = true →
      ∃ v : Value, (render_template name ctx).2 = ctxSet ctx "table_of_contents" v) := by
  have h2 := renderResolvedWith_snd jinjaS (resolveTemplate name) ctx
  refine ⟨?_, ?_, ?_⟩
  · intro k hk
    show ctxGet (renderResolvedWith jinjaS (resolveTemplate name) ctx).2 k = ctxGet ctx k
    rw [h2]
    by_cases h : hasTocSection (sortByOrder (resolveTemplate name).sections)
    · rw [if_pos h, ctxGet_ctxSet_ne _ _ _ _ hk]
    · rw [if_neg h]
  · intro h
    show (renderResolvedWith jinjaS (resolveTemplate name) ctx).2 = ctx
    rw [h2, if_neg (by simp [h])]
  · intro h
    refine ⟨Value.vStr (joinNL (tocItemsLoop (sortByOrder (resolveTemplate name).sections))), ?_⟩
    show (renderResolvedWith jinjaS (resolveTemplate name) ctx).2 = _
    rw [h2, if_pos h]

/-- Witness for C6: on `"standard"` the key `project_name` is untouched,
and on `"minimal"` (no toc section) the empty context stays empty. -/
theorem context_frame_effect_witness :
    ("project_name" ≠ "table_of_contents" ∧
      ctxGet (render_template "standard" []).2 "project_name" =
        ctxGet ([] : Context) "project_name") ∧
    (hasTocSection (sortByOrder (resolveTemplate "minimal").sections) = false ∧
      (render_template "minimal" []).2 = ([] : Context)) :=
  ⟨⟨by decide, (context_frame_effect "standard" []).1 "project_name" (by decide)⟩,
   ⟨by decide, (context_frame_effect "minimal" []).2.1 (by decide)⟩⟩

/-- C7: a second call of `render_template` with the same template name on
the context produced by a first call returns the identical output string
and context: the recomputed table of contents (which depends only on the
template) overwrites the injected key with the same value.  A context
unaffected by the first call is the special case in which the produced
context is the argument itself. -/
theorem render_idempotent (name : String) (ctx : Context) :
    render_template name ((render_template name ctx).2) = render_template name ctx := by
  show renderResolvedWith jinjaS (resolveTemplate name)
      ((renderResolvedWith jinjaS (resolveTemplate name) ctx).2) =
    renderResolvedWith jinjaS (resolveTemplate name) ctx
  rw [renderResolvedWith_snd]
  by_cases h : hasTocSection (sortByOrder (resolveTemplate name).sections)
  · rw [if_pos h]
    unfold renderResolvedWith
    simp only [h, if_true, ctxSet_ctxSet_same]
  · rw [if_neg h]

/-- C1: whenever the resolved template has a section named `toc`,
`render_template` stores under the context key `table_of_contents` the
newline-joined list of entries `- [Title](#anchor)` — one for every
section in order-sorted sequence whose name is neither `toc` nor `header`
and whose title is non-empty, the anchor being the lowercased title with
spaces replaced by hyphens — and the output document is rendered against
that augmented context (the key is stored before any section renders). -/
theorem toc_synthesized_spec (name : String) (ctx : Context)
    (h : hasTocSection (sortByOrder (resolveTemplate name).sections) = true) :
    ctxGet (render_template name ctx).2 "table_of_contents" =
      some (Value.vStr (joinNL
        (((sortByOrder (resolveTemplate name).sections).filter
            (fun s => !(s.name == "toc") && !(s.name == "header") && !(s.title == ""))).map
          (fun s => "- [" ++ s.title ++ "](#" ++ pyReplace (pyLower s.title) " " "-" ++ ")")))) ∧
    (render_template name ctx).1 =
      joinNL (renderLoopWith jinjaS (render_template name ctx).2
        (sortByOrder (resolveTemplate name).sections)) := by
  have h2 : (render_template name ctx).2 =
      ctxSet ctx "table_of_contents"
        (Value.vStr (joinNL (tocItemsLoop (sortByOrder (resolveTemplate name).sections)))) := by
    show (renderResolvedWith jinjaS (resolveTemplate name) ctx).2 = _
    rw [renderResolvedWith_snd, if_pos h]
  constructor
  · rw [h2, ctxGet_ctxSet_same, tocItemsLoop_eq_filter_map]
    rfl
  · exact renderResolvedWith_fst jinjaS (resolveTemplate name) ctx

/-- Witness for C1 on the `"standard"` template and the empty context. -/
theorem toc_synthesized_spec_witness :
    hasTocSection (sortByOrder (resolveTemplate "standard").sections) = true ∧
    (ctxGet (render_template "standard" []).2 "table_of_contents" =
      some (Value.vStr (joinNL
        (((sortByOrder (resolveTemplate "standard").sections).filter
            (fun s => !(s.name == "toc") && !(s.name == "header") && !(s.title == ""))).map
          (fun s => "- [" ++ s.title ++ "](#" ++ pyReplace (pyLower s.title) " " "-" ++ ")")))) ∧
    (render_template "standard" []).1 =
      joinNL (renderLoopWith jinjaS (render_template "standard" []).2
        (sortByOrder (resolveTemplate "standard").sections))) :=
  ⟨by decide, toc_synthesized_spec "standard" [] (by decide)⟩

/-- C2: for every section-rendering engine, template name and context,
`render_template` always returns a string and a failure (a raised
exception, modelled by `none`) while rendering one section only omits
that section: replacing every failure by an empty render leaves the
result unchanged, every section that renders successfully to non-blank
text is still included among the joined parts, and in the worst case in
which every section fails or renders blank the output is the empty
string. -/
theorem render_failure_isolation (jr : TemplateSection → Context → Option String)
    (name : String) (ctx : Context) :
    renderDocumentWith jr name ctx =
      renderDocumentWith (fun s c => some ((jr s c).getD "")) name ctx ∧
    (∀ s ∈ sortByOrder (resolveTemplate name).sections, ∀ r : String,
      jr s (renderDocumentWith jr name ctx).2 = some r → pyStrip r ≠ "" →
      r ∈ renderLoopWith jr (renderDocumentWith jr name ctx).2
        (sortByOrder (resolveTemplate name).sections)) ∧
    ((∀ s ∈ sortByOrder (resolveTemplate name).sections, ∀ r : String,
      jr s (renderDocumentWith jr name ctx).2 = some r → pyStrip r = "") →
      (renderDocumentWith jr name ctx).1 = "") := by
  refine ⟨?_, ?_, ?_⟩
  · have hsnd : (renderResolvedWith jr (resolveTemplate name) ctx).2 =
        (renderResolvedWith (fun s c => some ((jr s c).getD "")) (resolveTemplate name) ctx).2 := rfl
    have hfst : (renderResolvedWith jr (resolveTemplate name) ctx).1 =
        (renderResolvedWith (fun s c => some ((jr s c).getD "")) (resolveTemplate name) ctx).1 := by
      rw [renderResolvedWith_fst, renderResolvedWith_fst, ← hsnd,
        ← renderLoopWith_failure_as_empty]
    exact Prod.ext hfst hsnd
  · intro s hs r hjr hne
    rw [renderLoopWith_eq_filterMap]
    refine List.mem_filterMap.mpr ⟨s, hs, ?_⟩
    rw [hjr]
    simp [hne]
  · intro hall
    have hnil : renderLoopWith jr (renderDocumentWith jr name ctx).2
        (sortByOrder (resolveTemplate name).sections) = [] := by
      rw [renderLoopWith_eq_filterMap]
      rw [List.filterMap_eq_nil_iff]
      intro a ha
      cases hj : jr a (renderDocumentWith jr name ctx).2 with
      | none => rfl
      | some r =>
        have hr := hall a ha r hj
        simp [hr]
    have hout := renderResolvedWith_fst jr (resolveTemplate name) ctx
    show (renderResolvedWith jr (resolveTemplate name) ctx).1 = ""
    rw [hout]
    have : renderLoopWith jr (renderResolvedWith jr (resolveTemplate name) ctx).2
        (sortByOrder (resolveTemplate name).sections) = [] := hnil
    rw [this]
    rfl

/-- Witness for C2: with the engine failing on every section of
`"standard"`, the worst-case clause yields the empty output. -/
theorem render_failure_isolation_witness :
    (∀ s ∈ sortByOrder (resolveTemplate "standard").sections, ∀ r : String,
      (fun (_ : TemplateSection) (_ : Context) => (none : Option String)) s
        (renderDocumentWith (fun _ _ => none) "standard" []).2 = some r → pyStrip r = "") ∧
    (renderDocumentWith (fun _ _ => (none : Option String)) "standard" []).1 = "" :=
  ⟨by intro s hs r hr; simp at hr,
   (render_failure_isolation (fun _ _ => none) "standard" []).2.2
     (by intro s hs r hr; simp at hr)⟩

/-- C4: a section whose rendered content is empty or whitespace-only is
omitted from the output entirely — turning every blank render into an
outright failure changes nothing, and no whitespace-only part ever
appears among the joined output parts (so the section contributes not
even a separator); the `optional` flag plays no role: rewriting it
arbitrarily on every section leaves the result of rendering unchanged. -/
theorem blank_section_omission :
    (∀ (jr : TemplateSection → Context → Option String) (t : Template) (ctx : Context),
      renderResolvedWith jr t ctx =
        renderResolvedWith
          (fun s c => (jr s c).bind (fun r => if pyStrip r = "" then none else some r)) t ctx) ∧
    (∀ (t : Template) (ctx : Context) (f : TemplateSection → Bool),
      renderResolvedWith jinjaS
          { t with sections := t.sections.map (fun s => { s with optional := f s }) } ctx =
        renderResolvedWith jinjaS t ctx) ∧
    (∀ (jr : TemplateSection → Context → Option String) (ctx : Context)
      (l : List TemplateSection) (p : String),
      p ∈ renderLoopWith jr ctx l → pyStrip p ≠ "") := by
  refine ⟨?_, ?_, ?_⟩
  · intro jr t ctx
    have hsnd : (renderResolvedWith jr t ctx).2 =
        (renderResolvedWith
          (fun s c => (jr s c).bind (fun r => if pyStrip r = "" then none else some r)) t ctx).2 := rfl
    have hfst : (renderResolvedWith jr t ctx).1 =
        (renderResolvedWith
          (fun s c => (jr s c).bind (fun r => if pyStrip r = "" then none else some r)) t ctx).1 := by
      rw [renderResolvedWith_fst, renderResolvedWith_fst, ← hsnd,
        ← renderLoopWith_blank_as_failure]
    exact Prod.ext hfst hsnd
  · intro t ctx f
    have hsec : ({ t with sections := t.sections.map (fun s => { s with optional := f s })} : Template).sections
        = t.sections.map (fun s => { s with optional := f s }) := rfl
    have hsort : sortByOrder (t.sections.map (fun s => { s with optional := f s })) =
        (sortByOrder t.sections).map (fun s => { s with optional := f s }) :=
      sortByOrder_map_optional f t.sections
    have htoc : hasTocSection ((sortByOrder t.sections).map (fun s => { s with optional := f s })) =
        hasTocSection (sortByOrder t.sections) :=
      hasTocSection_map_optional f (sortByOrder t.sections)
    have hitems : tocItemsLoop ((sortByOrder t.sections).map (fun s => { s with optional := f s })) =
        tocItemsLoop (sortByOrder t.sections) :=
      tocItemsLoop_map_optional f (sortByOrder t.sections)
    have hsnd : (renderResolvedWith jinjaS
          { t with sections := t.sections.map (fun s => { s with optional := f s }) } ctx).2 =
        (renderResolvedWith jinjaS t ctx).2 := by
      rw [renderResolvedWith_snd, renderResolvedWith_snd, hsec, hsort, htoc, hitems]
    have hfst : (renderResolvedWith jinjaS
          { t with sections := t.sections.map (fun s => { s with optional := f s }) } ctx).1 =
        (renderResolvedWith jinjaS t ctx).1 := by
      rw [renderResolvedWith_fst, renderResolvedWith_fst, hsnd, hsec, hsort,
        renderLoopWith_jinjaS_map_optional]
    exact Prod.ext hfst hsnd
  · exact fun jr ctx l p hp => trim_ne_of_mem_renderLoopWith jr ctx l p hp

/-- Witness for C4: the non-blank license default render is a member of
the rendered parts, hence certified non-whitespace by the theorem. -/
theorem blank_section_omission_witness :
    ("## License\n\n\nThis project is provided as-is without any license.\n" ∈
      renderLoopWith jinjaS [] [licenseSection]) ∧
    pyStrip "## License\n\n\nThis project is provided as-is without any license.\n" ≠ "" :=
  ⟨by decide,
   blank_section_omission.2.2 jinjaS [] [licenseSection]
     "## License\n\n\nThis project is provided as-is without any license.\n" (by decide)⟩

/-- C5: rendering concatenates the surviving sections with single
newlines in the order of a stable ascending sort on `order` — the sort is
a permutation that is pairwise non-decreasing on `order` and preserves
the declaration order of equal keys — and a template with no sections
renders to the empty string. -/
theorem render_order_stable_join :
    (∀ l : List TemplateSection,
      (sortByOrder l).Pairwise (fun a b => a.order ≤ b.order) ∧
      List.Perm (sortByOrder l) l ∧
      (∀ k : Int, (sortByOrder l).filter (fun s => s.order == k) =
        l.filter (fun s => s.order == k))) ∧
    (∀ (name : String) (ctx : Context),
      (render_template name ctx).1 =
        joinNL ((sortByOrder (resolveTemplate name).sections).filterMap
          (fun s => (jinjaS s (render_template name ctx).2).bind
            (fun r => if pyStrip r = "" then none else some r)))) ∧
    (∀ (t : Template) (ctx : Context), t.sections = [] →
      (renderResolvedWith jinjaS t ctx).1 = "") := by
  refine ⟨?_, ?_, ?_⟩
  · intro l
    exact ⟨pairwise_sortByOrder l, perm_sortByOrder l, fun k => filter_sortByOrder l k⟩
  · intro name ctx
    have h := renderResolvedWith_fst jinjaS (resolveTemplate name) ctx
    show (renderResolvedWith jinjaS (resolveTemplate name) ctx).1 = _
    rw [h, renderLoopWith_eq_filterMap]
    rfl
  · intro t ctx h
    have hsort : sortByOrder t.sections = [] := by rw [h]; rfl
    rw [renderResolvedWith_fst, hsort]
    rfl

/-- Witness for C5: a template with an empty section sequence renders to
the empty string. -/
theorem render_order_stable_join_witness :
    (Template.mk "empty" "no sections" [] []).sections = [] ∧
    (renderResolvedWith jinjaS (Template.mk "empty" "no sections" [] []) []).1 = "" :=
  ⟨rfl, render_order_stable_join.2.2 (Template.mk "empty" "no sections" [] []) [] rfl⟩

/-- C9: for the `"minimal"` template and any context without the key
`license`, the output still ends with the full License section whose text
is the guarded default branch stating the project is provided without any
license — the section is not omitted. -/
theorem minimal_license_default (ctx : Context)
    (h : ctxGet ctx "license" = none) :
    ∃ pre : String, (render_template "minimal" ctx).1 =
      pre ++ "## License\n\n\nThis project is provided as-is without any license.\n" := by
  have hsort : sortByOrder (resolveTemplate "minimal").sections =
      [headerSection, installationSection, usageSection, licenseSection] := by decide
  have hctx : (renderResolvedWith jinjaS (resolveTemplate "minimal") ctx).2 = ctx := by
    rw [renderResolvedWith_snd, if_neg]
    rw [hsort]
    decide
  have hcond : licenseCond ctx = false := by
    unfold licenseCond
    rw [h]
  have hlic : jinjaS licenseSection ctx =
      some "## License\n\n\nThis project is provided as-is without any license.\n" := by
    show renderLicense ctx = _
    unfold renderLicense
    rw [hcond]
    simp only [Bool.false_eq_true, if_false]
    decide
  have hlast : renderLoopWith jinjaS ctx [licenseSection] =
      ["## License\n\n\nThis project is provided as-is without any license.\n"] := by
    simp only [renderLoopWith, hlic]
    rw [if_neg (by decide)]
  have hout : (render_template "minimal" ctx).1 =
      joinNL (renderLoopWith jinjaS ctx
        [headerSection, installationSection, usageSection, licenseSection]) := by
    have h1 := renderResolvedWith_fst jinjaS (resolveTemplate "minimal") ctx
    show (renderResolvedWith jinjaS (resolveTemplate "minimal") ctx).1 = _
    rw [h1, hctx, hsort]
  rw [hout,
    show ([headerSection, installationSection, usageSection, licenseSection] :
        List TemplateSection) =
      [headerSection, installationSection, usageSection] ++ [licenseSection] from rfl,
    renderLoopWith_append, hlast]
  exact joinNL_append_single _ _

/-- Witness for C9 at the empty context. -/
theorem minimal_license_default_witness :
    ctxGet ([] : Context) "license" = none ∧
    ∃ pre : String, (render_template "minimal" []).1 =
      pre ++ "## License\n\n\nThis project is provided as-is without any license.\n" :=
  ⟨rfl, minimal_license_default [] rfl⟩

/-- C10: the synthesized table of contents depends only on the resolved
template, never on the context — any two contexts receive the identical
injected string.  Consequently the table of contents can list a section
that produces no output under the given context: with an engine on which
the `features` body of `"standard"` renders to whitespace, the whitespace
render is omitted from the joined parts while the Features entry still
appears in the synthesized table of contents, leaving a TOC link with no
matching heading. -/
theorem toc_context_independent :
    (∀ (name : String) (ctx₁ ctx₂ : Context),
      hasTocSection (sortByOrder (resolveTemplate name).sections) = true →
      ∃ T : String,
        ctxGet (render_template name ctx₁).2 "table_of_contents" = some (Value.vStr T) ∧
        ctxGet (render_template name ctx₂).2 "table_of_contents" = some (Value.vStr T)) ∧
    ((fun (s : TemplateSection) (c : Context) =>
        if s.name == "features" then some " " else jinjaS s c) featuresSection
      (renderDocumentWith (fun s c =>
        if s.name == "features" then some " " else jinjaS s c) "standard" []).2 = some " " ∧
    " " ∉ renderLoopWith (fun s c =>
        if s.name == "features" then some " " else jinjaS s c)
      (renderDocumentWith (fun s c =>
        if s.name == "features" then some " " else jinjaS s c) "standard" []).2
      (sortByOrder (resolveTemplate "standard").sections) ∧
    "- [Features](#features)" ∈ tocItemsLoop (sortByOrder (resolveTemplate "standard").sections)) := by
  refine ⟨?_, rfl, ?_, by decide⟩
  · intro name ctx₁ ctx₂ h
    refine ⟨joinNL (tocItemsLoop (sortByOrder (resolveTemplate name).sections)), ?_, ?_⟩
    · show ctxGet (renderResolvedWith jinjaS (resolveTemplate name) ctx₁).2 "table_of_contents" = _
      rw [renderResolvedWith_snd, if_pos h, ctxGet_ctxSet_same]
    · show ctxGet (renderResolvedWith jinjaS (resolveTemplate name) ctx₂).2 "table_of_contents" = _
      rw [renderResolvedWith_snd, if_pos h, ctxGet_ctxSet_same]
  · intro hmem
    exact trim_ne_of_mem_renderLoopWith _ _ _ _ hmem (by decide)

/-- Witness for C10: the `"standard"` template injects the same
table-of-contents string into the empty context and into a populated
one. -/
theorem toc_context_independent_witness :
    hasTocSection (sortByOrder (resolveTemplate "standard").sections) = true ∧
    ∃ T : String,
      ctxGet (render_template "standard" []).2 "table_of_contents" = some (Value.vStr T) ∧
      ctxGet (render_template "standard"
        [("project_name", Value.vStr "demo")]).2 "table_of_contents" = some (Value.vStr T) :=
  ⟨by decide,
   toc_context_independent.1 "standard" [] [("project_name", Value.vStr "demo")] (by decide)⟩

end ReadmeForge
